import Mathlib

/-!
Verification of the battery-monitor firmware's wake-cycle orchestration and
update-coordination core, as a shallow embedding in Lean 4.

The embedding follows the C++ sources:
- `OTAManager` (ota_manager.cpp): persistent OTA trigger in the `Preferences`
  namespace "ota", `checkPendingOTA`, `requestUpdate`, `handleUpdate`,
  `isNewerVersion`, `checkForUpdates`.
- `NetworkManager::mqttCallback` (network_manager.cpp): the `/ota` update-command
  branch and the `/config/battery_type` branch.
- `ConfigManager` (config_manager.h): `begin`, `saveConfig`, `clear` over the
  `Preferences` namespace "battery-mon".
- `setup` / `loop` (main.cpp): the per-boot wake-cycle sequencing, modelled as
  an event trace.

The ESP32 `Preferences` key/value store is modelled as a record of `Option`
fields (a `none` key is absent; `getX(key, default)` is `Option.getD`).
Arduino `String` operations (`trim`, `toLowerCase`, `equalsIgnoreCase`,
`indexOf`, `length`) are modelled over `String.data` character lists.
-/

namespace BatteryMon

/-- Whitespace as tested by `isspace`, which Arduino `String::trim` uses. -/
def wsChar (c : Char) : Bool :=
  c = ' ' || c = '\t' || c = '\n' || c = '\r' || c = '\x0b' || c = '\x0c'

/-- Arduino `String::trim()`: strip leading and trailing whitespace. -/
def arduinoTrim (s : String) : String :=
  ⟨((s.data.dropWhile wsChar).reverse.dropWhile wsChar).reverse⟩

/-- Arduino `String::toLowerCase()`. -/
def lowerStr (s : String) : String := ⟨s.data.map Char.toLower⟩

/-- Arduino `String::length()`. -/
def strLen (s : String) : Nat := s.data.length

/-- `String::indexOf(c) != -1`, i.e. the character occurs in the string. -/
def hasChar (s : String) (c : Char) : Bool := s.data.contains c

/-- Arduino `String::equalsIgnoreCase`. -/
def eqIgnoreCase (a b : String) : Bool := lowerStr a == lowerStr b

/-! ## PersistentTrigger: the `Preferences` namespace "ota"

`saveOTATrigger` / `clearOTATrigger` / the read in `checkPendingOTA`
(ota_manager.cpp lines 7-41). Keys: `pending` (Bool), `filename` (String). -/

structure OTAStore where
  pendingKey : Option Bool
  filenameKey : Option String
  deriving DecidableEq, Repr

/-- `OTAManager::saveOTATrigger`: `putBool("pending", true); putString("filename", f)`. -/
def saveOTATrigger (filename : String) (_s : OTAStore) : OTAStore :=
  { pendingKey := some true, filenameKey := some filename }

/-- `OTAManager::clearOTATrigger`: `putBool("pending", false); putString("filename", "")`. -/
def clearOTATrigger (_s : OTAStore) : OTAStore :=
  { pendingKey := some false, filenameKey := some "" }

/-- The read-only peek done by `checkPendingOTA`:
`getBool("pending", false)` and `getString("filename", "")`. -/
def otaPeek (s : OTAStore) : Bool × String :=
  (s.pendingKey.getD false, s.filenameKey.getD "")

/-! ## OTAManager state -/

structure OTAMState where
  otaRequested : Bool
  otaFilename : String
  store : OTAStore
  deriving DecidableEq, Repr

/-- `OTAManager` constructor: `otaRequested(false), otaFilename("")`. -/
def otaInit (s : OTAStore) : OTAMState :=
  { otaRequested := false, otaFilename := "", store := s }

/-- `OTAManager::checkPendingOTA` (ota_manager.cpp lines 23-41). -/
def checkPendingOTA (m : OTAMState) : Bool × OTAMState :=
  let pending := m.store.pendingKey.getD false
  let filename := m.store.filenameKey.getD ""
  if pending then
    (true, { m with otaRequested := true, otaFilename := filename })
  else
    (false, m)

/-- `OTAManager::requestUpdate` (ota_manager.cpp lines 96-102). -/
def requestUpdate (filename : String) (m : OTAMState) : OTAMState :=
  { m with otaRequested := true, otaFilename := filename,
           store := saveOTATrigger filename m.store }

/-- `OTAManager::isUpdateRequested`. -/
def isUpdateRequested (m : OTAMState) : Bool := m.otaRequested

/-! ## OTAManager::handleUpdate (ota_manager.cpp lines 108-165)

Modelled as an event trace plus an outcome.  `httpOk` is the result of
`performHTTPUpdate` (the underlying HTTP fetch); `uploadArrives` says whether an
ArduinoOTA network upload arrives inside the one-minute wait window (in which
case the device flashes and restarts). -/

inductive HUEvent where
  | clearTrigger
  | httpFetch
  | uploadWaitOpen
  | deviceRestart
  deriving DecidableEq, Repr

inductive HUOutcome where
  | restarted
  | returned (m : OTAMState)
  deriving DecidableEq, Repr

def handleUpdate (httpOk uploadArrives : Bool) (m : OTAMState) :
    List HUEvent × HUOutcome :=
  if m.otaRequested = false then ([], .returned m)
  else if 0 < strLen m.otaFilename then
    -- HTTP update branch: clear the persistent trigger BEFORE attempting update
    let m1 : OTAMState := { m with store := clearOTATrigger m.store }
    if httpOk then
      ([.clearTrigger, .httpFetch, .deviceRestart], .restarted)
    else
      ([.clearTrigger, .httpFetch], .returned { m1 with otaRequested := false })
  else
    -- ArduinoOTA branch: clear the trigger, then wait (bounded) for an upload
    let m1 : OTAMState := { m with store := clearOTATrigger m.store }
    if uploadArrives then
      ([.clearTrigger, .uploadWaitOpen, .deviceRestart], .restarted)
    else
      ([.clearTrigger, .uploadWaitOpen], .returned { m1 with otaRequested := false })

/-- Events at which the actual update transfer begins: the HTTP fetch in
DirectDownload mode, or the opening of the upload-wait window. -/
def isTransferEv : HUEvent → Bool
  | .httpFetch => true
  | .uploadWaitOpen => true
  | _ => false

/-- No transfer event occurs before a `clearTrigger` event. -/
def clearBeforeTransfer : List HUEvent → Bool
  | [] => true
  | .clearTrigger :: _ => true
  | e :: rest => if isTransferEv e then false else clearBeforeTransfer rest

/-- The update mode an accepted request selects, as decided by the branch of
`handleUpdate` on the filename: a non-empty filename means an HTTP direct
download, an empty filename means the ArduinoOTA network-upload wait. -/
inductive UpdateMode where
  | DirectDownload
  | NetworkUploadWait
  deriving DecidableEq, Repr

def updateModeOf (filename : String) : UpdateMode :=
  if 0 < strLen filename then .DirectDownload else .NetworkUploadWait

/-! ## Version comparison (`OTAManager::isNewerVersion`, ota_manager.cpp 244-263)

`sscanf(str, "%d.%d.%d", &a, &b, &c)` is modelled by `scanVersion`: each `%d`
skips whitespace and reads an optional-signed decimal integer; a conversion
that fails stops the scan, leaving the remaining components at their initial
value 0. -/

def digitsVal (ds : List Char) : Nat :=
  ds.foldl (fun a c => a * 10 + (c.toNat - 48)) 0

/-- One `%d` conversion of `sscanf`: skip whitespace, optional sign, digits. -/
def parseIntFrom (cs : List Char) : Option (Int × List Char) :=
  let cs1 := cs.dropWhile wsChar
  match cs1 with
  | '-' :: r =>
    let ds := r.takeWhile Char.isDigit
    if ds.isEmpty then none else some (-(digitsVal ds : Int), r.drop ds.length)
  | '+' :: r =>
    let ds := r.takeWhile Char.isDigit
    if ds.isEmpty then none else some ((digitsVal ds : Int), r.drop ds.length)
  | _ =>
    let ds := cs1.takeWhile Char.isDigit
    if ds.isEmpty then none else some ((digitsVal ds : Int), cs1.drop ds.length)

/-- `sscanf(s, "%d.%d.%d", ...)` with all three variables initialised to 0. -/
def scanVersion (s : String) : Int × Int × Int :=
  match parseIntFrom s.data with
  | none => (0, 0, 0)
  | some (a, r1) =>
    match r1 with
    | '.' :: r2 =>
      match parseIntFrom r2 with
      | none => (a, 0, 0)
      | some (b, r3) =>
        match r3 with
        | '.' :: r4 =>
          match parseIntFrom r4 with
          | none => (a, b, 0)
          | some (c, _) => (a, b, c)
        | _ => (a, b, 0)
    | _ => (a, 0, 0)

/-- `OTAManager::isNewerVersion` (ota_manager.cpp 244-263). -/
def isNewerVersion (latest current : String) : Bool :=
  if strLen latest = 0 ∨ strLen current = 0 then false
  else
    let l := scanVersion latest
    let c := scanVersion current
    if l.1 > c.1 then true
    else if l.1 = c.1 ∧ l.2.1 > c.2.1 then true
    else if l.1 = c.1 ∧ l.2.1 = c.2.1 ∧ l.2.2 > c.2.2 then true
    else false

/-- Strict lexicographic order on (major, minor, patch) triples: the spec's
notion of "the target triple is strictly greater than the current triple". -/
def lexGtTriple (l c : Int × Int × Int) : Prop :=
  c.1 < l.1 ∨ (c.1 = l.1 ∧ (c.2.1 < l.2.1 ∨ (c.2.1 = l.2.1 ∧ c.2.2 < l.2.2)))

instance (l c : Int × Int × Int) : Decidable (lexGtTriple l c) := by
  unfold lexGtTriple; infer_instance

/-! ## CommandDispatcher: `NetworkManager::mqttCallback`, update-command branch
(network_manager.cpp 270-331).  The registered OTA callback is
`otaManager.requestUpdate` (registered in main.cpp `setup`). -/

inductive DEvent where
  | publishClearRetained
  | waitFlush (ms : Nat)
  | invokeOta (filename : String)
  | rejected
  | ignoredEmpty
  deriving DecidableEq, Repr

/-- The flush loop after clearing the retained command:
`for (int i = 0; i < 20; i++) { mqttClient.loop(); delay(50); }`. -/
def retainedClearFlushMs : Nat := 20 * 50

structure DispatchOut where
  events : List DEvent
  m : OTAMState
  deriving DecidableEq, Repr

def mqttCallbackOta (payload : String) (m : OTAMState) : DispatchOut :=
  let message := arduinoTrim payload
  if strLen message = 0 then
    -- empty payload: broker echo of the just-cleared retained message
    { events := [.ignoredEmpty], m := m }
  else
    -- clear the retained message FIRST, then wait for the publish to flush
    let pre : List DEvent := [.publishClearRetained, .waitFlush retainedClearFlushMs]
    if hasChar message '\\' = false ∧ hasChar message ':' = false then
      if eqIgnoreCase message "update" = true ∨ eqIgnoreCase message "ota" = true then
        { events := pre ++ [.invokeOta ""], m := requestUpdate "" m }
      else
        { events := pre ++ [.invokeOta message], m := requestUpdate message m }
    else
      { events := pre ++ [.rejected], m := m }

/-- The filename the OTA callback was invoked with, if it was invoked. -/
def invokedOta (d : DispatchOut) : Option String :=
  d.events.findSome? (fun e => match e with | .invokeOta f => some f | _ => none)

/-! ## ConfigManager (config_manager.h)

The `Preferences` namespace "battery-mon".  Keys written by `begin` on first
run: `wifi_ssid`, `wifi_pass`, `mqtt_srv`, `mqtt_port`, `mqtt_user`,
`mqtt_pass`, `mqtt_id`, `deep_sleep`, plus the first-run marker key
(named "initialized" in the source, `initFlag` here); `ota_target` is read
with default "" but not written on first run. -/

structure ConfigDefaults where
  wifiSsid : String
  wifiPass : String
  mqttServer : String
  mqttPort : Nat
  mqttUser : String
  mqttPass : String
  mqttClientID : String
  deriving DecidableEq, Repr

structure BatteryMonNVS where
  wifi_ssid : Option String
  wifi_pass : Option String
  mqtt_srv : Option String
  mqtt_port : Option Nat
  mqtt_user : Option String
  mqtt_pass : Option String
  mqtt_id : Option String
  deep_sleep : Option Bool
  ota_target : Option String
  initFlag : Option Bool
  deriving DecidableEq, Repr

/-- The durable store before the first-ever boot: no key present. -/
def emptyNVS : BatteryMonNVS :=
  { wifi_ssid := none, wifi_pass := none, mqtt_srv := none, mqtt_port := none,
    mqtt_user := none, mqtt_pass := none, mqtt_id := none, deep_sleep := none,
    ota_target := none, initFlag := none }

/-- The in-memory `ConfigManager` fields loaded by `begin`. -/
structure ConfigMgr where
  wifiSSID : String
  wifiPassword : String
  mqttServer : String
  mqttPort : Nat
  mqttUser : String
  mqttPassword : String
  mqttClientID : String
  deepSleepEnabled : Bool
  otaTargetVersion : String
  deriving DecidableEq, Repr

/-- `ConfigManager::begin` (config_manager.h lines 31-81): detect first run via
the marker key, on first run write the passed defaults (and `deep_sleep :=
true`) and set the marker, then load every field from the store with the
passed defaults as fallbacks. -/
def configBegin (d : ConfigDefaults) (nvs : BatteryMonNVS) : ConfigMgr × BatteryMonNVS :=
  let isFirstRun := !(nvs.initFlag.getD false)
  let nvs1 :=
    if isFirstRun then
      { nvs with wifi_ssid := some d.wifiSsid, wifi_pass := some d.wifiPass,
                 mqtt_srv := some d.mqttServer, mqtt_port := some d.mqttPort,
                 mqtt_user := some d.mqttUser, mqtt_pass := some d.mqttPass,
                 mqtt_id := some d.mqttClientID, deep_sleep := some true,
                 initFlag := some true }
    else nvs
  let cfg : ConfigMgr :=
    { wifiSSID := nvs1.wifi_ssid.getD d.wifiSsid,
      wifiPassword := nvs1.wifi_pass.getD d.wifiPass,
      mqttServer := nvs1.mqtt_srv.getD d.mqttServer,
      mqttPort := nvs1.mqtt_port.getD d.mqttPort,
      mqttUser := nvs1.mqtt_user.getD d.mqttUser,
      mqttPassword := nvs1.mqtt_pass.getD d.mqttPass,
      mqttClientID := nvs1.mqtt_id.getD d.mqttClientID,
      deepSleepEnabled := nvs1.deep_sleep.getD true,
      otaTargetVersion := nvs1.ota_target.getD "" }
  (cfg, nvs1)

/-- `ConfigManager::clear` (config_manager.h lines 114-118):
`preferences.clear()` erases every key, then the marker is written `false`. -/
def configClear (_nvs : BatteryMonNVS) : BatteryMonNVS :=
  { emptyNVS with initFlag := some false }

/-! ## Chemistry selection: `/config/battery_type` branch of
`NetworkManager::mqttCallback` (part_006 lines 463-487). -/

inductive BatteryChemistry where
  | LEAD_ACID
  | LIFEPO4
  deriving DecidableEq, Repr

structure ChemState where
  batteryType : String
  nvsBatteryType : Option String
  chem : BatteryChemistry
  deriving DecidableEq, Repr

/-- The `/config/battery_type` handler: trim + lowercase the payload, match it
against the alias vocabulary; on a match set `config.batteryType` and the
active chemistry, persist immediately via `saveConfig()` (modelled as copying
`batteryType` into its durable slot), and publish the canonical value retained
to the `<hostname>_battery_type/state` topic; otherwise return with no change
and no publish. -/
def batteryTypeCallback (hostname payload : String) (s : ChemState) :
    ChemState × List (String × String × Bool) :=
  let t := lowerStr (arduinoTrim payload)
  if t = "lifepo4" ∨ t = "life" ∨ t = "li" then
    let s1 := { s with batteryType := "lifepo4", chem := .LIFEPO4 }
    let s2 := { s1 with nvsBatteryType := some s1.batteryType }
    (s2, [(hostname ++ "_battery_type/state", s1.batteryType, true)])
  else if t = "leadacid" ∨ t = "lead" ∨ t = "sla" then
    let s1 := { s with batteryType := "leadacid", chem := .LEAD_ACID }
    let s2 := { s1 with nvsBatteryType := some s1.batteryType }
    (s2, [(hostname ++ "_battery_type/state", s1.batteryType, true)])
  else
    (s, [])

/-! ## Wake-cycle orchestration (main.cpp `setup` and `loop`)

Modelled as an event trace.  Environment booleans stand for the outcomes of
the blocking collaborator calls (WiFi connect in each of the three places it
is attempted, MQTT connect, the HTTP fetch, an ArduinoOTA upload arriving
inside the wait window), `pumpPayload` for an update-command message delivered
during the MQTT pump window, and the remaining strings for the compile-time /
configured versions used by the automatic update check.

An outcome of `none` means the device restarted inside the cycle (successful
update); `some m` is the OTA-manager state at the end of the cycle. -/

/-- `OTAManager::checkForUpdates` (ota_manager.cpp 265-311): compare the
configured target version against the running firmware version and request an
update (arming the persistent trigger) when the target is newer. -/
def checkForUpdates (targetVersion fwVersion batteryTypeName : String)
    (m : OTAMState) : Bool × OTAMState :=
  if strLen targetVersion = 0 then (false, m)
  else if isNewerVersion targetVersion fwVersion = true then
    (true, requestUpdate ("v" ++ targetVersion ++ "/firmware-" ++ batteryTypeName ++ ".bin") m)
  else (false, m)

inductive Ev where
  | checkPending (found : Bool)
  | connectWiFi (ok : Bool)
  | otaSetup
  | handleUpd
  | disconnectNet
  | checkUpdates (found : Bool)
  | showOtaScreen
  | readBattery
  | connectMQTT (ok : Bool)
  | publishReading
  | pumpMessage
  | suspendDecision
  | stayAwake
  deriving DecidableEq, Repr

structure WakeEnv where
  displayReady : Bool
  autoCheckOTA : Bool
  wifiSetupOk : Bool
  wifiAutoOk : Bool
  wifiLoopOk : Bool
  mqttOk : Bool
  httpOk : Bool
  uploadArrives : Bool
  pumpPayload : Option String
  cfgTargetVersion : String
  fwVersion : String
  batteryTypeName : String
  deriving DecidableEq, Repr

/-- End of `loop`: `if (otaManager.isUpdateRequested())` stay awake, else the
suspend decision (deep sleep or the debug delay loop). -/
def endPhase (m : OTAMState) : List Ev :=
  if m.otaRequested then [.stayAwake] else [.suspendDecision]

/-- The pending-OTA block at the top of `setup`: `if (otaManager.checkPendingOTA())`
connect WiFi and, on success, `otaManager.setup(); otaManager.handleUpdate();
network.disconnect();` — on WiFi failure the attempt is deferred
("Will retry next boot"). -/
def setupPending (e : WakeEnv) (m0 : OTAMState) : List Ev × Option OTAMState :=
  match checkPendingOTA m0 with
  | (true, m1) =>
    if e.wifiSetupOk then
      match handleUpdate e.httpOk e.uploadArrives m1 with
      | (_, .restarted) =>
        ([.checkPending true, .connectWiFi true, .otaSetup, .handleUpd], none)
      | (_, .returned m2) =>
        ([.checkPending true, .connectWiFi true, .otaSetup, .handleUpd, .disconnectNet], some m2)
    else ([.checkPending true, .connectWiFi false], some m1)
  | (false, m1) => ([.checkPending false], some m1)

/-- The statement that follows in `setup`: `if (display.isReady()) { showOTAScreen }
else if (Config::AUTO_CHECK_OTA) { connect WiFi; checkForUpdates; on success
otaManager.setup(); handleUpdate(); then network.disconnect(); }`.
(The `else if` binds to the display check, as written in the source.) -/
def setupAuto (e : WakeEnv) (pr : List Ev × Option OTAMState) : List Ev × Option OTAMState :=
  match pr with
  | (evs, none) => (evs, none)
  | (evs, some m2) =>
    if e.displayReady then (evs ++ [.showOtaScreen], some m2)
    else if e.autoCheckOTA then
      if e.wifiAutoOk then
        match checkForUpdates e.cfgTargetVersion e.fwVersion e.batteryTypeName m2 with
        | (true, m3) =>
          match handleUpdate e.httpOk e.uploadArrives m3 with
          | (_, .restarted) =>
            (evs ++ [.connectWiFi true, .checkUpdates true, .otaSetup, .handleUpd], none)
          | (_, .returned m4) =>
            (evs ++ [.connectWiFi true, .checkUpdates true, .otaSetup, .handleUpd,
                     .disconnectNet], some m4)
        | (false, m3) =>
          (evs ++ [.connectWiFi true, .checkUpdates false, .disconnectNet], some m3)
      else (evs ++ [.connectWiFi false], some m2)
    else (evs, some m2)

def setupPhase (e : WakeEnv) (m0 : OTAMState) : List Ev × Option OTAMState :=
  setupAuto e (setupPending e m0)

/-- One pass of `loop`: read the battery, connect WiFi and MQTT, publish, pump
MQTT for commands (handling an update if one is or becomes requested),
disconnect unless an update is in progress, then decide suspend vs stay-awake. -/
def loopPhase (e : WakeEnv) (m : OTAMState) : List Ev × Option OTAMState :=
  if e.wifiLoopOk then
    if e.mqttOk then
      let pr : List Ev × OTAMState :=
        match e.pumpPayload with
        | some p => ([.pumpMessage], (mqttCallbackOta p m).m)
        | none => ([], m)
      if pr.2.otaRequested then
        match handleUpdate e.httpOk e.uploadArrives pr.2 with
        | (_, .restarted) =>
          ([.readBattery, .connectWiFi true, .otaSetup, .connectMQTT true, .publishReading]
            ++ pr.1 ++ [.handleUpd], none)
        | (_, .returned m2) =>
          ([.readBattery, .connectWiFi true, .otaSetup, .connectMQTT true, .publishReading]
            ++ pr.1 ++ [.handleUpd, .disconnectNet] ++ endPhase m2, some m2)
      else
        ([.readBattery, .connectWiFi true, .otaSetup, .connectMQTT true, .publishReading]
          ++ pr.1 ++ [.disconnectNet] ++ endPhase pr.2, some pr.2)
    else
      ([.readBattery, .connectWiFi true, .otaSetup, .connectMQTT false]
        ++ (if m.otaRequested then ([] : List Ev) else [.disconnectNet])
        ++ endPhase m, some m)
  else
    ([.readBattery, .connectWiFi false] ++ endPhase m, some m)

/-- One full wake cycle: `setup` then the first pass of `loop`. -/
def wakeCycle (e : WakeEnv) (m0 : OTAMState) : List Ev × Option OTAMState :=
  match setupPhase e m0 with
  | (evs, none) => (evs, none)
  | (evs, some m1) =>
    let lp := loopPhase e m1
    (evs ++ lp.1, lp.2)

/-- Broker-related events: the MQTT connection attempt and telemetry publish. -/
def isBrokerEv : Ev → Bool
  | .connectMQTT _ => true
  | .publishReading => true
  | _ => false

/-- No broker event occurs strictly before the first update attempt. -/
def attemptFirst : List Ev → Bool
  | [] => true
  | .handleUpd :: _ => true
  | e :: rest => if isBrokerEv e then false else attemptFirst rest

end BatteryMon

namespace BatteryMon

/-- A string that contains a character is non-empty. -/
theorem hasChar_strLen_pos (s : String) (c : Char) (h : hasChar s c = true) :
    0 < strLen s := by
  unfold hasChar at h
  unfold strLen
  have hm : c ∈ s.data := by
    simpa using h
  exact List.length_pos.mpr (List.ne_nil_of_mem hm)

/-- `equalsIgnoreCase` against a keyword forces equal lengths. -/
theorem strLen_of_eqIgnoreCase (msg kw : String) (hk : eqIgnoreCase msg kw = true) :
    strLen msg = strLen kw := by
  unfold eqIgnoreCase at hk
  have hE : lowerStr msg = lowerStr kw := eq_of_beq hk
  have : (lowerStr msg).data.length = (lowerStr kw).data.length := by rw [hE]
  simpa [lowerStr, strLen] using this

/-- If a character is fixed by `toLower` and absent from the lower-cased
keyword, it is absent from any string `equalsIgnoreCase`-equal to the keyword. -/
theorem hasChar_of_eqIgnoreCase (msg kw : String) (c : Char)
    (hlc : Char.toLower c = c) (hk : eqIgnoreCase msg kw = true)
    (hnc : hasChar (lowerStr kw) c = false) : hasChar msg c = false := by
  unfold eqIgnoreCase at hk
  have hE : lowerStr msg = lowerStr kw := eq_of_beq hk
  by_contra hcc
  have hmem : c ∈ msg.data := by
    have : hasChar msg c = true := by
      cases hcv : hasChar msg c
      · exact absurd hcv hcc
      · rfl
    simpa [hasChar] using this
  have hmem2 : Char.toLower c ∈ (lowerStr msg).data :=
    List.mem_map_of_mem Char.toLower hmem
  rw [hlc, hE] at hmem2
  have : hasChar (lowerStr kw) c = true := by
    simpa [hasChar] using hmem2
  rw [this] at hnc
  exact Bool.noConfusion hnc

/-- Claim C6: for every prior state of the persistent trigger and every filename
`f`, `arm(f); disarm()` (i.e. `saveOTATrigger f` then `clearOTATrigger`) leaves
`peek() = (false, "")`, and `disarm` is idempotent. -/
theorem persistentTrigger_arm_disarm (s : OTAStore) (f : String) :
    otaPeek (clearOTATrigger (saveOTATrigger f s)) = (false, "") ∧
    clearOTATrigger (clearOTATrigger s) = clearOTATrigger s := by
  constructor <;> rfl

/-- Claim C1: whenever `handleUpdate` runs with an update requested, the trace
contains a transfer event, every transfer event is preceded by a durable
`clearTrigger` (disarm strictly before the HTTP fetch resp. before the
upload-wait window opens), and if the attempt fails (the function returns) the
persistent trigger already reads `(pending := false, filename := "")`, so the
next boot falls through to normal operation. -/
theorem handleUpdate_disarms_before_transfer (httpOk uploadArrives : Bool)
    (m : OTAMState) (h : m.otaRequested = true) :
    ((handleUpdate httpOk uploadArrives m).1.any isTransferEv = true) ∧
    clearBeforeTransfer (handleUpdate httpOk uploadArrives m).1 = true ∧
    (∀ m', (handleUpdate httpOk uploadArrives m).2 = .returned m' →
      otaPeek m'.store = (false, "")) := by
  unfold handleUpdate
  rw [h]
  by_cases hf : 0 < strLen m.otaFilename <;>
    by_cases hh : httpOk <;>
      by_cases hu : uploadArrives <;>
        simp [hf, hh, hu, clearBeforeTransfer, isTransferEv, otaPeek, clearOTATrigger]

/-- Witness for C1 at a concrete failing HTTP update of "f.bin". -/
theorem handleUpdate_disarms_before_transfer_witness :
    let m : OTAMState := { otaRequested := true, otaFilename := "f.bin",
                           store := { pendingKey := some true, filenameKey := some "f.bin" } }
    clearBeforeTransfer (handleUpdate false false m).1 = true := by
  intro m
  exact (handleUpdate_disarms_before_transfer false false m rfl).2.1

/-- Claim C5: `isNewerVersion` parses both strings as dot-separated
(major, minor, patch) integer triples and returns `true` iff the target triple
is lexicographically strictly greater than the current triple; moreover
`isNewer("1.2.0","1.1.9") = true`, `isNewer("2.0.0","1.9.9") = true` and
`isNewer("1.1.0","1.1.0") = false` (equal versions are not newer). -/
theorem isNewerVersion_spec :
    (∀ t cur : String, 0 < strLen t → 0 < strLen cur →
      (isNewerVersion t cur = true ↔ lexGtTriple (scanVersion t) (scanVersion cur))) ∧
    isNewerVersion "1.2.0" "1.1.9" = true ∧
    isNewerVersion "2.0.0" "1.9.9" = true ∧
    isNewerVersion "1.1.0" "1.1.0" = false := by
  refine ⟨?_, by decide, by decide, by decide⟩
  intro t cur ht hc
  unfold isNewerVersion
  rw [if_neg (by omega)]
  rcases scanVersion t with ⟨a, b, c⟩
  rcases scanVersion cur with ⟨d, e, f⟩
  unfold lexGtTriple
  dsimp only
  split_ifs with h1 h2 h3 <;> simp <;> omega

/-- Witness for C5 at the concrete pair ("1.2.0", "1.1.9"). -/
theorem isNewerVersion_spec_witness :
    isNewerVersion "1.2.0" "1.1.9" = true :=
  (isNewerVersion_spec.1 "1.2.0" "1.1.9" (by decide) (by decide)).mpr (by decide)

/-- Claim C3: a non-empty update-command payload whose trimmed form contains a
backslash or a colon invokes no OTA callback (so `requestUpdate` is never
called and no `UpdateRequest` is produced) and leaves the OTA manager state,
in particular the persistent trigger record, unchanged. -/
theorem dispatcher_rejects_backslash_colon (p : String) (m : OTAMState)
    (h : hasChar (arduinoTrim p) '\\' = true ∨ hasChar (arduinoTrim p) ':' = true) :
    invokedOta (mqttCallbackOta p m) = none ∧ (mqttCallbackOta p m).m = m := by
  have hpos : 0 < strLen (arduinoTrim p) := by
    rcases h with h | h
    · exact hasChar_strLen_pos _ _ h
    · exact hasChar_strLen_pos _ _ h
  unfold mqttCallbackOta
  rw [if_neg (by omega)]
  rw [if_neg (by rcases h with h | h <;> simp [h])]
  exact ⟨rfl, rfl⟩

/-- Witness for C3 at the payload "bad:name" from the spec's scenario. -/
theorem dispatcher_rejects_backslash_colon_witness :
    invokedOta (mqttCallbackOta "bad:name"
      (otaInit { pendingKey := none, filenameKey := none })) = none :=
  (dispatcher_rejects_backslash_colon "bad:name" _ (Or.inr (by decide))).1

/-- Claim C4: the exact case analysis of the trimmed update-command payload:
an empty payload is ignored with no action and no trigger change; the literal
"update" or "ota" (case-insensitive) invokes the OTA callback with an empty
filename, which selects NetworkUploadWait mode; any other payload free of
backslash and colon invokes the callback with the payload itself, selecting
DirectDownload mode. -/
theorem mqttCallback_update_topic_cases :
    (∀ (p : String) (m : OTAMState), strLen (arduinoTrim p) = 0 →
      mqttCallbackOta p m = { events := [.ignoredEmpty], m := m }) ∧
    (∀ (p : String) (m : OTAMState),
      eqIgnoreCase (arduinoTrim p) "update" = true ∨ eqIgnoreCase (arduinoTrim p) "ota" = true →
      mqttCallbackOta p m =
        { events := [.publishClearRetained, .waitFlush retainedClearFlushMs, .invokeOta ""],
          m := requestUpdate "" m } ∧
      updateModeOf "" = .NetworkUploadWait) ∧
    (∀ (p : String) (m : OTAMState), 0 < strLen (arduinoTrim p) →
      hasChar (arduinoTrim p) '\\' = false → hasChar (arduinoTrim p) ':' = false →
      eqIgnoreCase (arduinoTrim p) "update" = false →
      eqIgnoreCase (arduinoTrim p) "ota" = false →
      mqttCallbackOta p m =
        { events := [.publishClearRetained, .waitFlush retainedClearFlushMs,
                     .invokeOta (arduinoTrim p)],
          m := requestUpdate (arduinoTrim p) m } ∧
      updateModeOf (arduinoTrim p) = .DirectDownload) := by
  refine ⟨?_, ?_, ?_⟩
  · intro p m h
    unfold mqttCallbackOta
    rw [if_pos h]
  · intro p m h
    have h6 : ¬ strLen (arduinoTrim p) = 0 := by
      rcases h with h | h
      · have := strLen_of_eqIgnoreCase _ _ h
        simp only [this]; decide
      · have := strLen_of_eqIgnoreCase _ _ h
        simp only [this]; decide
    have hb : hasChar (arduinoTrim p) '\\' = false := by
      rcases h with h | h
      · exact hasChar_of_eqIgnoreCase _ _ _ (by decide) h (by decide)
      · exact hasChar_of_eqIgnoreCase _ _ _ (by decide) h (by decide)
    have hc : hasChar (arduinoTrim p) ':' = false := by
      rcases h with h | h
      · exact hasChar_of_eqIgnoreCase _ _ _ (by decide) h (by decide)
      · exact hasChar_of_eqIgnoreCase _ _ _ (by decide) h (by decide)
    unfold mqttCallbackOta
    rw [if_neg h6, if_pos ⟨hb, hc⟩, if_pos h]
    exact ⟨rfl, rfl⟩
  · intro p m hpos hb hc hu ho
    unfold mqttCallbackOta
    rw [if_neg (by omega), if_pos ⟨hb, hc⟩, if_neg (by simp [hu, ho])]
    refine ⟨rfl, ?_⟩
    unfold updateModeOf
    rw [if_pos hpos]

/-- Witness for C4: the spec's scenario payloads "", "UPDATE" and
"v1.0.2/firmware-a.bin", each dispatched from a blank trigger state. -/
theorem mqttCallback_update_topic_cases_witness :
    let m0 : OTAMState := otaInit { pendingKey := none, filenameKey := none }
    mqttCallbackOta "" m0 = { events := [.ignoredEmpty], m := m0 } ∧
    mqttCallbackOta "UPDATE" m0 =
      { events := [.publishClearRetained, .waitFlush retainedClearFlushMs, .invokeOta ""],
        m := requestUpdate "" m0 } ∧
    mqttCallbackOta "v1.0.2/firmware-a.bin" m0 =
      { events := [.publishClearRetained, .waitFlush retainedClearFlushMs,
                   .invokeOta "v1.0.2/firmware-a.bin"],
        m := requestUpdate "v1.0.2/firmware-a.bin" m0 } := by
  intro m0
  refine ⟨mqttCallback_update_topic_cases.1 "" m0 (by decide), ?_, ?_⟩
  · exact (mqttCallback_update_topic_cases.2.1 "UPDATE" m0 (Or.inl (by decide))).1
  · have := (mqttCallback_update_topic_cases.2.2 "v1.0.2/firmware-a.bin" m0
      (by decide) (by decide) (by decide) (by decide) (by decide)).1
    simpa using this

/-- Claim C9 (counterexample): at the concrete accepted payload "update", the
publish-and-wait-for-flush step blocks for 1000 ms (20 iterations of 50 ms),
which is not a duration on the order of tens of milliseconds (≤ 99 ms). -/
theorem retainedClearWait_not_tens_of_ms :
    (mqttCallbackOta "update" (otaInit { pendingKey := none, filenameKey := none })).events =
      [.publishClearRetained, .waitFlush 1000, .invokeOta ""] ∧
    ¬(retainedClearFlushMs ≤ 99) := by
  constructor
  · rfl
  · decide

/-- Claim C9 (amended): before dispatching any non-empty update-command
payload, the dispatcher first republishes an empty retained payload to the same
command topic and then blocks for a bounded 1000 ms flush wait (20 iterations
of 50 ms) before proceeding. -/
theorem dispatcher_clears_retained_then_waits (p : String) (m : OTAMState)
    (h : 0 < strLen (arduinoTrim p)) :
    retainedClearFlushMs = 1000 ∧
    ∃ rest, (mqttCallbackOta p m).events =
      .publishClearRetained :: .waitFlush retainedClearFlushMs :: rest := by
  refine ⟨rfl, ?_⟩
  unfold mqttCallbackOta
  rw [if_neg (by omega)]
  split_ifs with h1 h2
  · exact ⟨_, rfl⟩
  · exact ⟨_, rfl⟩
  · exact ⟨_, rfl⟩

/-- Witness for the amended C9 at the payload "update". -/
theorem dispatcher_clears_retained_then_waits_witness :
    retainedClearFlushMs = 1000 ∧
    ∃ rest, (mqttCallbackOta "update"
      (otaInit { pendingKey := none, filenameKey := none })).events =
        .publishClearRetained :: .waitFlush retainedClearFlushMs :: rest :=
  dispatcher_clears_retained_then_waits "update" _ (by decide)

/-- Claim C7: `ConfigManager.begin(defaults)` on the first-ever invocation
(marker unset) writes the defaults into durable storage, sets the marker and
loads those defaults; a subsequent invocation loads the durably stored values,
ignoring the new defaults for every key already present (so it returns exactly
what the first invocation stored); and after `clear()` the next
`begin(defaults)` behaves exactly like the first-ever invocation. -/
theorem configManager_begin_spec :
    (∀ d : ConfigDefaults, configBegin d emptyNVS =
      ({ wifiSSID := d.wifiSsid, wifiPassword := d.wifiPass, mqttServer := d.mqttServer,
         mqttPort := d.mqttPort, mqttUser := d.mqttUser, mqttPassword := d.mqttPass,
         mqttClientID := d.mqttClientID, deepSleepEnabled := true, otaTargetVersion := "" },
       { wifi_ssid := some d.wifiSsid, wifi_pass := some d.wifiPass,
         mqtt_srv := some d.mqttServer, mqtt_port := some d.mqttPort,
         mqtt_user := some d.mqttUser, mqtt_pass := some d.mqttPass,
         mqtt_id := some d.mqttClientID, deep_sleep := some true,
         ota_target := none, initFlag := some true })) ∧
    (∀ (d d' : ConfigDefaults) (nvs : BatteryMonNVS), nvs.initFlag.getD false = false →
      configBegin d' (configBegin d nvs).2 = configBegin d nvs) ∧
    (∀ (d : ConfigDefaults) (nvs : BatteryMonNVS),
      configBegin d (configClear nvs) = configBegin d emptyNVS) := by
  refine ⟨fun d => rfl, ?_, fun d nvs => rfl⟩
  intro d d' nvs h
  simp [configBegin, h]

/-- Witness for C7 at concrete defaults: a second `begin` with different
defaults returns what the first `begin` stored. -/
theorem configManager_begin_spec_witness :
    let d0 : ConfigDefaults := ⟨"ssid-a", "pw-a", "broker-a", 1883, "user-a", "mp-a", "dev-a"⟩
    let d1 : ConfigDefaults := ⟨"ssid-b", "pw-b", "broker-b", 8883, "user-b", "mp-b", "dev-b"⟩
    configBegin d1 (configBegin d0 emptyNVS).2 = configBegin d0 emptyNVS := by
  intro d0 d1
  exact configManager_begin_spec.2.1 d0 d1 emptyNVS (by decide)

/-- Claim C8: on the chemistry-selection topic, the trimmed, lower-cased
payload is matched against the alias vocabulary: any of "lifepo4", "life",
"li" selects canonical "lifepo4", any of "leadacid", "lead", "sla" selects
canonical "leadacid"; on success the canonical value is stored in the config,
persisted immediately and published retained to the battery-type
acknowledgement topic; any other payload is rejected with no state change and
no publish. -/
theorem battery_type_alias_spec :
    (∀ (h p : String) (s : ChemState),
      lowerStr (arduinoTrim p) = "lifepo4" ∨ lowerStr (arduinoTrim p) = "life" ∨
        lowerStr (arduinoTrim p) = "li" →
      batteryTypeCallback h p s =
        ({ batteryType := "lifepo4", nvsBatteryType := some "lifepo4",
           chem := .LIFEPO4 },
         [(h ++ "_battery_type/state", "lifepo4", true)])) ∧
    (∀ (h p : String) (s : ChemState),
      lowerStr (arduinoTrim p) = "leadacid" ∨ lowerStr (arduinoTrim p) = "lead" ∨
        lowerStr (arduinoTrim p) = "sla" →
      batteryTypeCallback h p s =
        ({ batteryType := "leadacid", nvsBatteryType := some "leadacid",
           chem := .LEAD_ACID },
         [(h ++ "_battery_type/state", "leadacid", true)])) ∧
    (∀ (h p : String) (s : ChemState),
      lowerStr (arduinoTrim p) ≠ "lifepo4" → lowerStr (arduinoTrim p) ≠ "life" →
      lowerStr (arduinoTrim p) ≠ "li" → lowerStr (arduinoTrim p) ≠ "leadacid" →
      lowerStr (arduinoTrim p) ≠ "lead" → lowerStr (arduinoTrim p) ≠ "sla" →
      batteryTypeCallback h p s = (s, [])) := by
  refine ⟨?_, ?_, ?_⟩
  · intro h p s hv
    unfold batteryTypeCallback
    rw [if_pos hv]
  · intro h p s hv
    have hnl : ¬(lowerStr (arduinoTrim p) = "lifepo4" ∨ lowerStr (arduinoTrim p) = "life" ∨
        lowerStr (arduinoTrim p) = "li") := by
      rcases hv with hv | hv | hv <;> simp [hv]
    unfold batteryTypeCallback
    rw [if_neg hnl, if_pos hv]
  · intro h p s h1 h2 h3 h4 h5 h6
    unfold batteryTypeCallback
    rw [if_neg (by simp [h1, h2, h3]), if_neg (by simp [h4, h5, h6])]

/-- Witness for C8: payload " LiFe " is accepted as "lifepo4", payload "nimh"
is rejected with no state change and no publish. -/
theorem battery_type_alias_spec_witness :
    let s0 : ChemState := { batteryType := "leadacid", nvsBatteryType := some "leadacid",
                            chem := .LEAD_ACID }
    batteryTypeCallback "host" " LiFe " s0 =
      ({ batteryType := "lifepo4", nvsBatteryType := some "lifepo4", chem := .LIFEPO4 },
       [("host" ++ "_battery_type/state", "lifepo4", true)]) ∧
    batteryTypeCallback "host" "nimh" s0 = (s0, []) := by
  intro s0
  constructor
  · exact battery_type_alias_spec.1 "host" " LiFe " s0 (Or.inr (Or.inl (by decide)))
  · exact battery_type_alias_spec.2.2 "host" "nimh" s0 (by decide) (by decide)
      (by decide) (by decide) (by decide) (by decide)

/-! ### Helper lemmas about the wake cycle -/

/-- If `handleUpdate` returns (rather than restarting the device), the
returned state has `otaRequested = false` (including the no-request early
return, which requires `otaRequested = false` on entry). -/
theorem handleUpdate_returned_not_requested (h u : Bool) (m : OTAMState)
    (evs : List HUEvent) (m' : OTAMState)
    (heq : handleUpdate h u m = (evs, .returned m')) : m'.otaRequested = false := by
  unfold handleUpdate at heq
  split_ifs at heq with h1 h2 h3 h4 <;> injection heq with hA hB <;> cases hB <;> simp_all

/-- A negative `checkForUpdates` leaves the OTA manager state unchanged. -/
theorem checkForUpdates_false_id (t f b : String) (m m3 : OTAMState)
    (h : checkForUpdates t f b m = (false, m3)) : m3 = m := by
  unfold checkForUpdates at h
  split_ifs at h <;> simp_all

/-- With a pending trigger and WiFi up, the pending block of `setup` opens
with check-pending, WiFi connect, OTA setup and the update attempt. -/
theorem setupPending_shape (e : WakeEnv) (m0 : OTAMState)
    (hp : m0.store.pendingKey.getD false = true) (hw : e.wifiSetupOk = true) :
    ∃ t, (setupPending e m0).1 =
      .checkPending true :: .connectWiFi true :: .otaSetup :: .handleUpd :: t := by
  have hcp : checkPendingOTA m0 =
      (true, { m0 with otaRequested := true, otaFilename := m0.store.filenameKey.getD "" }) := by
    unfold checkPendingOTA
    rw [if_pos hp]
  unfold setupPending
  rw [hcp, hw]
  simp only [if_true]
  rcases hhu : handleUpdate e.httpOk e.uploadArrives
      { m0 with otaRequested := true, otaFilename := m0.store.filenameKey.getD "" } with ⟨evs, out⟩
  cases out <;> exact ⟨_, rfl⟩

/-- The display/auto-check statement only appends events. -/
theorem setupAuto_app (e : WakeEnv) (pr : List Ev × Option OTAMState) :
    ∃ t, (setupAuto e pr).1 = pr.1 ++ t := by
  rcases pr with ⟨evs, r⟩
  cases r with
  | none => exact ⟨[], (List.append_nil evs).symm⟩
  | some m2 =>
    unfold setupAuto
    dsimp only
    split_ifs with h1 h2 h3
    · exact ⟨_, rfl⟩
    · rcases hc : checkForUpdates e.cfgTargetVersion e.fwVersion e.batteryTypeName m2 with ⟨found, m3⟩
      cases found
      · exact ⟨_, rfl⟩
      · dsimp only
        rcases hhu : handleUpdate e.httpOk e.uploadArrives m3 with ⟨evs', out⟩
        cases out <;> exact ⟨_, rfl⟩
    · exact ⟨_, rfl⟩
    · exact ⟨[], (List.append_nil evs).symm⟩

/-- If the pending block ends in a still-requested state, it contains no
update attempt (the only way out with `otaRequested = true` is WiFi failure). -/
theorem setupPending_requested (e : WakeEnv) (m0 : OTAMState) (evs : List Ev) (m1 : OTAMState)
    (h : setupPending e m0 = (evs, some m1)) (hr : m1.otaRequested = true) :
    Ev.handleUpd ∉ evs := by
  unfold setupPending at h
  split at h
  · split_ifs at h with h1
    · split at h
      · simp at h
      next evs' m2 hhu =>
        injection h with hA hB
        injection hB with hB
        have hf := handleUpdate_returned_not_requested _ _ _ _ _ hhu
        rw [hB] at hf
        rw [hf] at hr
        exact absurd hr (by simp)
    · injection h with hA hB
      rw [← hA]
      simp
  · injection h with hA hB
    rw [← hA]
    simp

/-- Same property for the display/auto-check statement: if the result state is
still requested, the appended events contain no attempt and the entry state was
already requested. -/
theorem setupAuto_requested (e : WakeEnv) (evs0 : List Ev) (m2 : OTAMState)
    (evs : List Ev) (m1 : OTAMState)
    (h : setupAuto e (evs0, some m2) = (evs, some m1)) (hr : m1.otaRequested = true) :
    ∃ t, evs = evs0 ++ t ∧ Ev.handleUpd ∉ t ∧ m2.otaRequested = true := by
  unfold setupAuto at h
  dsimp only at h
  split_ifs at h with h1 h2 h3
  · injection h with hA hB
    injection hB with hB
    exact ⟨[.showOtaScreen], hA.symm, by simp, by rw [hB]; exact hr⟩
  · split at h
    next m3 hc =>
      split at h
      · simp at h
      next evs' m4 hhu =>
        injection h with hA hB
        injection hB with hB
        have hf := handleUpdate_returned_not_requested _ _ _ _ _ hhu
        rw [hB] at hf
        rw [hf] at hr
        exact absurd hr (by simp)
    next m3 hc =>
      injection h with hA hB
      injection hB with hB
      have hm3 : m3 = m2 := checkForUpdates_false_id _ _ _ _ _ hc
      refine ⟨[.connectWiFi true, .checkUpdates false, .disconnectNet], hA.symm, by simp, ?_⟩
      rw [← hm3, hB]
      exact hr
  · injection h with hA hB
    injection hB with hB
    exact ⟨[.connectWiFi false], hA.symm, by simp, by rw [hB]; exact hr⟩
  · injection h with hA hB
    injection hB with hB
    exact ⟨[], by rw [← hA]; simp, by simp, by rw [hB]; exact hr⟩

/-- Every completed pass of `loop` either ends not-requested with the suspend
decision in its trace, or still-requested with no update attempt in the pass
and the requested flag already set on entry. -/
theorem loopPhase_spec (e : WakeEnv) (m : OTAMState) (evs : List Ev) (m' : OTAMState)
    (h : loopPhase e m = (evs, some m')) :
    (m'.otaRequested = false ∧ Ev.suspendDecision ∈ evs) ∨
    (m'.otaRequested = true ∧ Ev.handleUpd ∉ evs ∧ m.otaRequested = true) := by
  unfold loopPhase at h
  split_ifs at h with h1 h2
  · cases hpp : e.pumpPayload with
    | none =>
      simp only [hpp] at h
      split_ifs at h with hq
      · split at h
        · simp at h
        next evs' m2 hhu =>
          injection h with hA hB
          injection hB with hB
          have hf := handleUpdate_returned_not_requested _ _ _ _ _ hhu
          rw [hB] at hf
          left
          refine ⟨hf, ?_⟩
          rw [← hA]
          simp [endPhase, hB, hf]
      · injection h with hA hB
        injection hB with hB
        left
        refine ⟨by rw [← hB]; simp [hq], ?_⟩
        rw [← hA]
        simp [endPhase, hq]
    | some p =>
      simp only [hpp] at h
      split_ifs at h with hq
      · split at h
        · simp at h
        next evs' m2 hhu =>
          injection h with hA hB
          injection hB with hB
          have hf := handleUpdate_returned_not_requested _ _ _ _ _ hhu
          rw [hB] at hf
          left
          refine ⟨hf, ?_⟩
          rw [← hA]
          simp [endPhase, hB, hf]
      · injection h with hA hB
        injection hB with hB
        left
        refine ⟨by rw [← hB]; simp [hq], ?_⟩
        rw [← hA]
        simp [endPhase, hq]
  · injection h with hA hB
    injection hB with hB
    cases hq : m.otaRequested
    · left
      refine ⟨by rw [← hB]; exact hq, ?_⟩
      rw [← hA]
      simp [endPhase, hq]
    · right
      refine ⟨by rw [← hB]; exact hq, ?_, rfl⟩
      rw [← hA]
      simp [endPhase, hq]
  · injection h with hA hB
    injection hB with hB
    cases hq : m.otaRequested
    · left
      refine ⟨by rw [← hB]; exact hq, ?_⟩
      rw [← hA]
      simp [endPhase, hq]
    · right
      refine ⟨by rw [← hB]; exact hq, ?_, rfl⟩
      rw [← hA]
      simp [endPhase, hq]
  · injection h with hA hB
    injection hB with hB
    cases hq : m.otaRequested
    · left
      refine ⟨by rw [← hB]; exact hq, ?_⟩
      rw [← hA]
      simp [endPhase, hq]
    · right
      refine ⟨by rw [← hB]; exact hq, ?_, rfl⟩
      rw [← hA]
      simp [endPhase, hq]

/-- Composition of the two setup-stage lemmas: a setup phase that ends in a
still-requested state contains no update attempt. -/
theorem setupPhase_requested (e : WakeEnv) (m0 : OTAMState) (evs : List Ev) (m1 : OTAMState)
    (h : setupPhase e m0 = (evs, some m1)) (hr : m1.otaRequested = true) :
    Ev.handleUpd ∉ evs := by
  unfold setupPhase at h
  rcases hpd : setupPending e m0 with ⟨evsP, rP⟩
  rw [hpd] at h
  cases rP with
  | none => simp [setupAuto] at h
  | some m2 =>
    obtain ⟨t, hT, hnotT, hm2⟩ := setupAuto_requested e evsP m2 evs m1 h hr
    have hP := setupPending_requested e m0 evsP m2 hpd hm2
    rw [hT]
    simp only [List.mem_append, not_or]
    exact ⟨hP, hnotT⟩

/-- Claim C2 (counterexample): a boot with the trigger pending at which the
WiFi connection attempted for the pending update fails.  The wake cycle still
attempts the update (the requested flag survives into the loop pass), but only
after the broker connection and the telemetry publish, refuting "the
orchestrator attempts that update at the top of the wake cycle, before broker
connection and publishing" as a statement about every boot with a pending
trigger. -/
theorem wake_pending_attempt_after_publish :
    let m0 : OTAMState := otaInit { pendingKey := some true, filenameKey := some "f.bin" }
    let e0 : WakeEnv := ⟨true, false, false, false, true, true, false, false, none, "", "1.0.0", "leadacid"⟩
    (otaPeek m0.store).1 = true ∧
    Ev.handleUpd ∈ (wakeCycle e0 m0).1 ∧
    attemptFirst (wakeCycle e0 m0).1 = false := by
  intro m0 e0
  refine ⟨rfl, ?_, ?_⟩ <;> decide

/-- Claim C2 (amended): for every boot at which the durable trigger reads
pending, `checkPendingOTA` returns `true` and moves the coordinator to the
Attempting state (`otaRequested = true` with the durably stored filename) from
the durable record alone, and — provided the WiFi connection attempted for the
pending update succeeds — the wake cycle attempts the update before any broker
connection or publish. -/
theorem checkPending_attempt_before_broker (e : WakeEnv) (m0 : OTAMState)
    (hp : (otaPeek m0.store).1 = true) (hw : e.wifiSetupOk = true) :
    checkPendingOTA m0 =
      (true, { m0 with otaRequested := true, otaFilename := (otaPeek m0.store).2 }) ∧
    Ev.handleUpd ∈ (wakeCycle e m0).1 ∧
    attemptFirst (wakeCycle e m0).1 = true := by
  have hp' : m0.store.pendingKey.getD false = true := hp
  obtain ⟨t, ht⟩ := setupPending_shape e m0 hp' hw
  obtain ⟨t2, ht2⟩ := setupAuto_app e (setupPending e m0)
  have hsp : (setupPhase e m0).1 =
      .checkPending true :: .connectWiFi true :: .otaSetup :: .handleUpd :: (t ++ t2) := by
    unfold setupPhase
    rw [ht2, ht]
    simp
  have hwc : ∃ t3, (wakeCycle e m0).1 =
      .checkPending true :: .connectWiFi true :: .otaSetup :: .handleUpd :: t3 := by
    unfold wakeCycle
    rcases hsp2 : setupPhase e m0 with ⟨evs, r⟩
    have hevs : evs =
        .checkPending true :: .connectWiFi true :: .otaSetup :: .handleUpd :: (t ++ t2) := by
      rw [← hsp, hsp2]
    cases r with
    | none => exact ⟨t ++ t2, by simp [hevs]⟩
    | some m1 => exact ⟨t ++ t2 ++ (loopPhase e m1).1, by simp [hevs]⟩
  obtain ⟨t3, ht3⟩ := hwc
  refine ⟨?_, ?_, ?_⟩
  · simp [checkPendingOTA, otaPeek, hp']
  · rw [ht3]; simp
  · rw [ht3]; rfl

/-- Witness for the amended C2: pending trigger for "f.bin", WiFi up. -/
theorem checkPending_attempt_before_broker_witness :
    let m0 : OTAMState := otaInit { pendingKey := some true, filenameKey := some "f.bin" }
    let e1 : WakeEnv := ⟨true, false, true, false, true, true, false, false, none, "", "1.0.0", "leadacid"⟩
    Ev.handleUpd ∈ (wakeCycle e1 m0).1 ∧ attemptFirst (wakeCycle e1 m0).1 = true := by
  intro m0 e1
  exact ⟨(checkPending_attempt_before_broker e1 m0 rfl rfl).2.1,
         (checkPending_attempt_before_broker e1 m0 rfl rfl).2.2⟩

/-- Claim C10: (i) whenever `handleUpdate` runs with an update requested and
returns to its caller (HTTP-fetch failure and upload-wait timeout alike), the
returned state has `isUpdateRequested() = false` and the durable trigger
disarmed; (ii) every completed wake cycle whose trace contains an update
attempt ends not-requested and reaches the orchestrator's suspend decision, so
no single inbound command keeps the device awake or retrying forever. -/
theorem handleUpdate_return_resumes_normal_operation :
    (∀ (hOk u : Bool) (m : OTAMState) (evs : List HUEvent) (m' : OTAMState),
      m.otaRequested = true → handleUpdate hOk u m = (evs, .returned m') →
      m'.otaRequested = false ∧ otaPeek m'.store = (false, "")) ∧
    (∀ (e : WakeEnv) (m0 : OTAMState) (evs : List Ev) (m' : OTAMState),
      wakeCycle e m0 = (evs, some m') → Ev.handleUpd ∈ evs →
      m'.otaRequested = false ∧ Ev.suspendDecision ∈ evs) := by
  constructor
  · intro hOk u m evs m' hreq heq
    unfold handleUpdate at heq
    split_ifs at heq with h1 h2 h3 h4 <;> injection heq with hA hB <;> cases hB <;>
      simp_all [otaPeek, clearOTATrigger]
  · intro e m0 evs m' hwc hmem
    unfold wakeCycle at hwc
    split at hwc
    · injection hwc with hA hB
      cases hB
    next evs0 m1 heq =>
      dsimp only at hwc
      injection hwc with hA hB
      have hlp2 : loopPhase e m1 = ((loopPhase e m1).1, some m') := by
        rw [← hB]
      rcases loopPhase_spec e m1 _ m' hlp2 with ⟨hf, hs⟩ | ⟨hT, hnot, hm1⟩
      · refine ⟨hf, ?_⟩
        rw [← hA]
        exact List.mem_append_right _ hs
      · have hmem0 : Ev.handleUpd ∈ evs0 := by
          rw [← hA] at hmem
          rcases List.mem_append.mp hmem with h9 | h9
          · exact h9
          · exact absurd h9 hnot
        exact absurd hmem0 (setupPhase_requested e m0 evs0 m1 heq hm1)

/-- Witness for C10: a failing HTTP update of "f.bin" at the function level,
and a full wake cycle with a pending trigger, WiFi up and a failing fetch. -/
theorem handleUpdate_return_resumes_normal_operation_witness :
    let mA : OTAMState := { otaRequested := true, otaFilename := "f.bin",
                            store := { pendingKey := some true, filenameKey := some "f.bin" } }
    let m2 : OTAMState := { otaRequested := false, otaFilename := "f.bin",
                            store := { pendingKey := some false, filenameKey := some "" } }
    let m0 : OTAMState := otaInit { pendingKey := some true, filenameKey := some "f.bin" }
    let e1 : WakeEnv := ⟨true, false, true, false, true, true, false, false, none, "", "1.0.0", "leadacid"⟩
    (m2.otaRequested = false ∧ otaPeek m2.store = (false, "")) ∧
    (m2.otaRequested = false ∧ Ev.suspendDecision ∈ (wakeCycle e1 m0).1) := by
  intro mA m2 m0 e1
  constructor
  · exact handleUpdate_return_resumes_normal_operation.1 false false mA
      [.clearTrigger, .httpFetch] m2 rfl rfl
  · exact handleUpdate_return_resumes_normal_operation.2 e1 m0
      (wakeCycle e1 m0).1 m2 rfl (by decide)

end BatteryMon
